import Mathlib

/-!
Verification development for the NEWBIZ_Lykos company-prospecting tool.

The Python sources are shallowly embedded here:
  - JSON values (as delivered by upstream APIs and by the web client) are
    modelled by the inductive `JsonValue`; JSON numbers are modelled as
    integers (no claim touches floating point).
  - Python truthiness, `or`, `str()`, dict/str membership (`in`), `dict.get`,
    `len`, slicing, `str.strip`, `str.title`, `str.upper` are modelled by
    the `py...` helpers below.  Character classes (`isdigit`, `isalpha`,
    `\w`, `str.strip()` whitespace) are modelled over ASCII, which covers
    every character the sources and claims exercise.
  - Code that can raise a Python exception is modelled in `Except String`,
    the error string naming the exception class raised.
-/

/-- A JSON value as produced by `json.loads` / `resp.json()`. -/
inductive JsonValue where
  | null : JsonValue
  | bool : Bool → JsonValue
  | num : Int → JsonValue
  | str : String → JsonValue
  | arr : List JsonValue → JsonValue
  | obj : List (String × JsonValue) → JsonValue

/-- A Python dict with string keys, as a key-value list (keys unique). -/
abbrev Obj := List (String × JsonValue)

/-- Python truthiness of a JSON value. -/
def pyTruthy : JsonValue → Bool
  | .null => false
  | .bool b => b
  | .num n => n != 0
  | .str s => s != ""
  | .arr xs => !xs.isEmpty
  | .obj fs => !fs.isEmpty

/-- Python `a or b` on JSON values. -/
def pyOr (a b : JsonValue) : JsonValue :=
  if pyTruthy a then a else b

/-!
Core `String` functions such as `replace`, `splitOn`, `startsWith`,
`take`, `drop` and `trim` are implemented in Lean with well-founded
loops over byte positions, which the kernel cannot evaluate; the
list-of-characters equivalents below are used instead so that every
definition evaluates on concrete inputs.
-/

/-- Whether `p` is a leading run of `l` (character lists). -/
def chStarts : List Char → List Char → Bool
  | [], _ => true
  | _ :: _, [] => false
  | a :: as, b :: bs => a == b && chStarts as bs

/-- Whether `needle` occurs as a contiguous run inside `hay`. -/
def chHasSub (needle : List Char) : List Char → Bool
  | [] => needle.isEmpty
  | a :: rest => chStarts needle (a :: rest) || chHasSub needle rest

/-- Python `s.startswith(p)` over the character lists. -/
def strStarts (s p : String) : Bool :=
  chStarts p.data s.data

/-- Truncation `s.take n` over the character list. -/
def strTake (s : String) (n : Nat) : String :=
  String.mk (s.data.take n)

/-- Removal `s.drop n` over the character list. -/
def strDrop (s : String) (n : Nat) : String :=
  String.mk (s.data.drop n)

/-- Python `s.strip()` over ASCII whitespace. -/
def pyStrip (s : String) : String :=
  String.mk (((s.data.dropWhile Char.isWhitespace).reverse.dropWhile
    Char.isWhitespace).reverse)

mutual

/-- Python `repr` of a JSON value (strings single-quoted). -/
def pyRepr : JsonValue → String
  | .null => "None"
  | .bool true => "True"
  | .bool false => "False"
  | .num n => toString n
  | .str s => "\x27" ++ s ++ "\x27"
  | .arr xs => "[" ++ pyReprList xs ++ "]"
  | .obj fs => "\x7b" ++ pyReprFields fs ++ "\x7d"

/-- Comma-separated `repr`s of the elements of a Python list. -/
def pyReprList : List JsonValue → String
  | [] => ""
  | [x] => pyRepr x
  | x :: y :: rest => pyRepr x ++ ", " ++ pyReprList (y :: rest)

/-- Comma-separated `key: value` `repr`s of the items of a Python dict. -/
def pyReprFields : List (String × JsonValue) → String
  | [] => ""
  | [(k, v)] => "\x27" ++ k ++ "\x27: " ++ pyRepr v
  | (k, v) :: y :: rest => "\x27" ++ k ++ "\x27: " ++ pyRepr v ++ ", " ++ pyReprFields (y :: rest)

end

/-- Python `str()` of a JSON value. -/
def pyStr (v : JsonValue) : String :=
  match v with
  | .str s => s
  | v => pyRepr v

/-- Python substring test `needle in hay` (needles used are never empty). -/
def pySubstr (hay needle : String) : Bool :=
  chHasSub needle.data hay.data

/-- Python `key in container`: key membership on dicts, substring test on
strings, element membership on lists; `TypeError` on other values. -/
def pyContains (container : JsonValue) (key : String) : Except String Bool :=
  match container with
  | .obj fs => .ok (fs.any (·.1 == key))
  | .str s => .ok (pySubstr s key)
  | .arr xs => .ok (xs.any fun x => match x with | .str t => t == key | _ => false)
  | _ => .error "TypeError"

/-- Python `d.get(key, dflt)` on a dict value; `AttributeError` otherwise. -/
def pyGetE (v : JsonValue) (key : String) (dflt : JsonValue) : Except String JsonValue :=
  match v with
  | .obj fs => .ok ((fs.lookup key).getD dflt)
  | _ => .error "AttributeError"

/-- Python `d.get(key, dflt)` on a dict already known to be a dict. -/
def objGet (fs : Obj) (key : String) (dflt : JsonValue) : JsonValue :=
  (fs.lookup key).getD dflt

/-- Python `len()`; `TypeError` on values without a length. -/
def pyLen : JsonValue → Except String Nat
  | .str s => .ok s.length
  | .arr xs => .ok xs.length
  | .obj fs => .ok fs.length
  | _ => .error "TypeError"

/-- Python `v[:9]` on the values it is applied to (guarded by `pyLen`). -/
def pySlice9 : JsonValue → Except String JsonValue
  | .str s => .ok (.str (strTake s 9))
  | .arr xs => .ok (.arr (xs.take 9))
  | _ => .error "TypeError"

/-- Python iteration `for item in v`: the elements of a list, the
one-character strings of a string, the keys of a dict; `TypeError`
on other values. -/
def pyIter : JsonValue → Except String (List JsonValue)
  | .arr xs => .ok xs
  | .str s => .ok (s.data.map fun c => .str (String.singleton c))
  | .obj fs => .ok (fs.map fun p => .str p.1)
  | _ => .error "TypeError"

/-- Python `str.title()` (ASCII): a letter is uppercased when the previous
character is not a letter, lowercased otherwise. -/
def pyTitleAux : Bool → List Char → List Char
  | _, [] => []
  | prevCased, c :: rest =>
    (if c.isAlpha then (if prevCased then c.toLower else c.toUpper) else c)
      :: pyTitleAux c.isAlpha rest

/-- Python `s.title()` on an ASCII string. -/
def pyTitle (s : String) : String :=
  String.mk (pyTitleAux false s.data)

/-- Python `s.isdigit()` (ASCII): non-empty and all digits. -/
def pyIsdigit (s : String) : Bool :=
  s != "" && s.data.all Char.isDigit

/-- Python `s.strip(", ")`: remove leading and trailing commas and spaces. -/
def stripCommaSpace (s : String) : String :=
  String.mk (((s.data.dropWhile fun c => c == ',' || c == ' ').reverse.dropWhile
    fun c => c == ',' || c == ' ').reverse)

/-- A word character of the regex `\b` boundary (ASCII `\w`). -/
def isWordChar (c : Char) : Bool :=
  c.isAlphanum || c == '_'

/-- Whether a position next to an optional neighbouring character is a `\b`
word boundary around a digit run (the neighbour must not be a word char). -/
def boundaryOk : Option Char → Bool
  | none => true
  | some c => !isWordChar c

/-- Scan for the leftmost match of `\b(\d{5})\b`: five digits preceded and
followed by a non-word character or the string edge.  `prev` is the
character just before the current position; the five captured digits are
returned. -/
def pcAux : Option Char → List Char → Option (Char × Char × Char × Char × Char)
  | _, [] => none
  | prev, a :: b :: c :: d :: e :: tail =>
    if a.isDigit && b.isDigit && c.isDigit && d.isDigit && e.isDigit
        && boundaryOk prev
        && (match tail with | [] => true | t :: _ => !isWordChar t) then
      some (a, b, c, d, e)
    else pcAux (some a) (b :: c :: d :: e :: tail)
  | _prev, a :: rest => pcAux (some a) rest

/-- Python `re.search` of the pattern `\b(\d{5})\b`: the first 5-digit postal code in `s`. -/
def findPostalCode (s : String) : Option String :=
  (pcAux none s.data).map fun m => String.mk [m.1, m.2.1, m.2.2.1, m.2.2.2.1, m.2.2.2.2]

/-- UTF-8 bytes of a character, as natural numbers. -/
def utf8Bytes (c : Char) : List Nat :=
  let n := c.toNat
  if n < 0x80 then [n]
  else if n < 0x800 then [0xC0 + n / 64, 0x80 + n % 64]
  else if n < 0x10000 then [0xE0 + n / 4096, 0x80 + (n / 64) % 64, 0x80 + n % 64]
  else [0xF0 + n / 262144, 0x80 + (n / 4096) % 64, 0x80 + (n / 64) % 64, 0x80 + n % 64]

/-- Uppercase hexadecimal digit. -/
def hexChar (n : Nat) : Char :=
  if n < 10 then Char.ofNat (48 + n) else Char.ofNat (55 + n)

/-- Python `urllib.parse.quote` with the default `safe="/"`: keep ASCII
alphanumerics and `_.-~/`, percent-encode the UTF-8 bytes of the rest. -/
def urlQuote (s : String) : String :=
  String.join (s.data.map fun c =>
    if c.isAlphanum || c == '_' || c == '.' || c == '-' || c == '~' || c == '/' then
      String.singleton c
    else
      String.join ((utf8Bytes c).map fun b =>
        String.mk ['%', hexChar (b / 16), hexChar (b % 16)]))

/-!
## Registry Client (`scraper/sirene.py`, class `SireneClient`)

`search_by_secteur_and_departement` is modelled by `sirene_search`.  The
network interaction inside the `try` block is abstracted by a parameter
`response : Except Unit JsonValue`: `.error ()` stands for any transport
error, non-2xx status or unparseable body (`requests.get`,
`raise_for_status` or `resp.json()` raising), `.ok data` for a parsed JSON
body.  The query-string construction (lines 62-81) has no observable
effect on the return value and is not modelled.
-/

/-- The table `TRANCHE_EFFECTIFS_LABELS` (sirene.py lines 10-27). -/
def trancheLabels (code : String) : Option String :=
  List.lookup code
    [("NN", "Unité non-employeuse ou effectif inconnu"),
     ("00", "0 salarié (ayant employé des salariés au cours de l\u0027année)"),
     ("01", "1 ou 2 salariés"),
     ("02", "3 à 5 salariés"),
     ("03", "6 à 9 salariés"),
     ("11", "10 à 19 salariés"),
     ("12", "20 à 49 salariés"),
     ("21", "50 à 99 salariés"),
     ("22", "100 à 199 salariés"),
     ("31", "200 à 249 salariés"),
     ("32", "250 à 499 salariés"),
     ("41", "500 à 999 salariés"),
     ("42", "1 000 à 1 999 salariés"),
     ("51", "2 000 à 4 999 salariés"),
     ("52", "5 000 à 9 999 salariés"),
     ("53", "10 000 salariés et plus")]

/-- One normalized company record (the dict appended at sirene.py
lines 197-209).  Fields copied verbatim from upstream JSON keep type
`JsonValue`; fields always computed as strings are `String`. -/
structure CompanyRecord where
  nom : JsonValue
  adresse : String
  telephone : String
  secteur : JsonValue
  siret : JsonValue
  siren : JsonValue
  dirigeant : String
  effectif : JsonValue
  etat : JsonValue

/-- Method `_demo_results` (sirene.py lines 213-241). -/
def demo_results (secteur departement : String) : List CompanyRecord :=
  [{ nom := .str ("Entreprise " ++ pyTitle secteur ++ " A (" ++ departement ++ ")"),
     adresse := "10 Rue de la Demo, 7500" ++ departement ++ " Ville-Demo",
     telephone := "01 23 45 67 89",
     secteur := .str secteur,
     siret := .str "12345678900011",
     siren := .str "123456789",
     dirigeant := "M. Jean Dupont",
     effectif := .str "03",
     etat := .str "Actif" },
   { nom := .str ("Entreprise " ++ pyTitle secteur ++ " B (" ++ departement ++ ")"),
     adresse := "25 Avenue Exemple, 7500" ++ departement ++ " Ville-Exemple",
     telephone := "01 98 76 54 32",
     secteur := .str secteur,
     siret := .str "98765432100022",
     siren := .str "987654321",
     dirigeant := "Mme Marie Martin",
     effectif := .str "10",
     etat := .str "Actif" }]

/-- Label resolution `etat_labels.get(etat, etat or "Inconnu")` (sirene.py lines 178-184):
the dict only hits string keys `"A"`, `"F"`, `"C"`; otherwise a truthy
state is shown as itself and a falsy one as `"Inconnu"`. -/
def etat_label_v (v : JsonValue) : JsonValue :=
  match v with
  | .str s =>
    if s = "A" then .str "Actif"
    else if s = "F" then .str "Fermé"
    else if s = "C" then .str "Cessé"
    else if s ≠ "" then .str s
    else .str "Inconnu"
  | v => if pyTruthy v then v else .str "Inconnu"

/-- Python `etat == "A"`: only the string `"A"` compares equal. -/
def isA : JsonValue → Bool
  | .str s => s == "A"
  | _ => false

/-- The displayed-status decision (sirene.py lines 186-195). -/
def etat_final_v (e u : JsonValue) : JsonValue :=
  if isA e && isA u then .str "Actif"
  else if !isA e then etat_label_v e
  else if isA e && !isA u then .str "Fermé"
  else .str (pyStr (etat_label_v e) ++ " / " ++ pyStr (etat_label_v u))

/-- Lines 109-115 / 118-121: `e[key]` when it is a dict, `{}` when the key
is missing or the value is not a dict; raises `TypeError` when `e` itself
is not a dict but claims to contain the key (string/list indexing). -/
def getDictField (e : JsonValue) (key : String) : Except String Obj := do
  let c ← pyContains e key
  if c then
    match e with
    | .obj fs =>
      match fs.lookup key with
      | some (.obj gfs) => pure gfs
      | _ => pure []
    | _ => throw "TypeError"
  else pure []

/-- Line 136: `unite.get("siren") or (siret[:9] if len(siret) >= 9 else "")`. -/
def compute_siren (sirenRaw siret : JsonValue) : Except String JsonValue :=
  if pyTruthy sirenRaw then .ok sirenRaw
  else do
    let n ← pyLen siret
    if 9 ≤ n then pySlice9 siret else pure (.str "")

/-- Lines 138-146: workforce-band label resolution. -/
def effectifLabel (code : JsonValue) : JsonValue :=
  if !pyTruthy code then .str "0 à 1"
  else match code with
  | .str s => if s = "NN" then .str "0 à 1" else .str ((trancheLabels s).getD s)
  | v => v

/-- Lines 157-163 / 169-174: fall back to the last entry of a chronological
status-history list when it is a non-empty list whose last entry is a dict;
otherwise the (falsy) current value is kept. -/
def lastPeriodEtat (periodes : JsonValue) (key : String) (current : JsonValue) : JsonValue :=
  match periodes with
  | .arr ps =>
    if ps.isEmpty then current
    else match ps.getLast? with
      | some (.obj dfs) => pyOr (objGet dfs key (.str "")) (.str "")
      | _ => current
  | _ => current

/-- Lines 154-163: state of the establishment. -/
def resolve_etat_etab (e : JsonValue) : Except String JsonValue := do
  let etat0 := pyOr (← pyGetE e "etatAdministratifEtablissement" JsonValue.null) (.str "")
  if pyTruthy etat0 then pure etat0
  else do
    let c ← pyContains e "periodesEtablissement"
    if c then do
      let periodes ← pyGetE e "periodesEtablissement" (.arr [])
      pure (lastPeriodEtat periodes "etatAdministratifEtablissement" etat0)
    else pure etat0

/-- Lines 166-174: state of the legal unit (`unite` is always a dict). -/
def resolve_etat_unite (unite : Obj) : JsonValue :=
  let etat0 := pyOr (objGet unite "etatAdministratifUniteLegale" JsonValue.null) (.str "")
  if pyTruthy etat0 then etat0
  else if unite.any (·.1 == "periodesUniteLegale") then
    lastPeriodEtat (objGet unite "periodesUniteLegale" (.arr []))
      "etatAdministratifUniteLegale" etat0
  else etat0

/-- Normalization of one establishment (sirene.py lines 107-209).  This
loop body runs outside the `try` block, so its exceptions propagate. -/
def normalize_record (e : JsonValue) : Except String CompanyRecord := do
  let unite ← getDictField e "uniteLegale"
  let adresse ← getDictField e "adresseEtablissement"
  let nom := pyOr (objGet unite "denominationUniteLegale" JsonValue.null)
      (pyOr (objGet unite "nomUniteLegale" JsonValue.null) (.str ""))
  let voie := pyOr (objGet adresse "libelleVoieEtablissement" (.str "")) (.str "")
  let cp := pyOr (objGet adresse "codePostalEtablissement" (.str "")) (.str "")
  let commune := pyOr (objGet adresse "libelleCommuneEtablissement" (.str "")) (.str "")
  let adresse_full := stripCommaSpace (pyStr voie ++ ", " ++ pyStr cp ++ " " ++ pyStr commune)
  let siret := pyOr (← pyGetE e "siret" (.str "")) (.str "")
  let siren ← compute_siren (objGet unite "siren" JsonValue.null) siret
  let effCode := pyOr (← pyGetE e "trancheEffectifsEtablissement" (.str "")) (.str "")
  let etatEtab ← resolve_etat_etab e
  let etatUnite := resolve_etat_unite unite
  pure { nom := nom,
         adresse := adresse_full,
         telephone := "",
         secteur := pyOr (objGet unite "activitePrincipaleUniteLegale" (.str "")) (.str ""),
         siret := siret,
         siren := siren,
         dirigeant := "",
         effectif := effectifLabel effCode,
         etat := etat_final_v etatEtab etatUnite }

/-- The loop of lines 107-209 over `etablissements[:limit]`. -/
def normalizeAll : List JsonValue → Except String (List CompanyRecord)
  | [] => .ok []
  | e :: rest => do
    let r ← normalize_record e
    let rs ← normalizeAll rest
    pure (r :: rs)

/-- Lines 94-98: unwrap one raw list item (`item["etablissement"]` when the
item claims to contain that key, the item itself otherwise). -/
def extract_item (item : JsonValue) : Except String JsonValue := do
  let c ← pyContains item "etablissement"
  if c then
    match item with
    | .obj fs => pure ((fs.lookup "etablissement").getD .null)
    | _ => throw "TypeError"
  else pure item

/-- The loop of lines 93-98 over the raw items. -/
def extractItems : List JsonValue → Except String (List JsonValue)
  | [] => .ok []
  | x :: rest => do
    let v ← extract_item x
    let vs ← extractItems rest
    pure (v :: vs)

/-- Lines 89-100: pull the establishment list out of the parsed body.
Runs inside the `try` block, so an exception here is caught by line 101. -/
def extract_etablissements (data : JsonValue) : Except String (List JsonValue) := do
  let c ← pyContains data "etablissements"
  if c then do
    let raw ← pyGetE data "etablissements" (.arr [])
    let items ← pyIter raw
    extractItems items
  else pure []

/-- Method `SireneClient.search_by_secteur_and_departement` (sirene.py
lines 51-211).  `api_key = ""` models a missing credential (demo mode);
an exception inside the `try` block (transport failure, unparseable JSON,
or extraction failure) falls back to demo data; exceptions of the
normalization loop (lines 107-209, outside the `try`) propagate. -/
def sirene_search (api_key secteur departement : String) (limit : Nat)
    (response : Except Unit JsonValue) : Except String (List CompanyRecord) :=
  if api_key = "" then .ok (demo_results secteur departement)
  else
    match response with
    | .error _ => .ok (demo_results secteur departement)
    | .ok data =>
      match extract_etablissements data with
      | .error _ => .ok (demo_results secteur departement)
      | .ok etabs => normalizeAll (etabs.take limit)

/-!
## Training-Fund Resolver fallback (`scraper/opco.py`, `_get_idcc_from_ape`)
-/

/-- The static APE-to-IDCC table (opco.py lines 115-189), in source order. -/
def ape_idcc_mapping : List (String × String) :=
  [("4711", "2120"), ("4719", "2120"), ("472", "2120"), ("473", "2120"),
   ("474", "2120"), ("475", "2120"), ("476", "2120"), ("477", "2120"),
   ("551", "1979"), ("552", "1979"), ("553", "1979"),
   ("561", "1979"), ("562", "1979"), ("563", "1979"),
   ("41", "1596"), ("42", "1596"), ("43", "1596"),
   ("10", "1486"), ("11", "1486"), ("13", "1486"), ("14", "1486"),
   ("15", "1486"), ("16", "1486"), ("17", "1486"), ("18", "1486"),
   ("19", "1486"), ("20", "1486"), ("21", "1486"), ("22", "1486"),
   ("23", "1486"), ("24", "1486"), ("25", "1486"), ("26", "1486"),
   ("27", "1486"), ("28", "1486"), ("29", "1486"), ("30", "1486"),
   ("31", "1486"), ("32", "1486"), ("33", "1486"),
   ("68", "2120"), ("69", "2120"), ("70", "2120"), ("71", "2120"),
   ("72", "2120"), ("73", "2120"), ("74", "2120"), ("77", "2120"),
   ("78", "2120"), ("79", "2120"), ("80", "2120"), ("81", "2120"),
   ("82", "2120"), ("85", "2120"), ("86", "2120"), ("87", "2120"),
   ("88", "2120"), ("90", "2120"), ("91", "2120"), ("92", "2120"),
   ("93", "2120"), ("94", "2120"), ("95", "2120"), ("96", "2120")]

/-- Function `_get_idcc_from_ape` (opco.py lines 104-205).  Note that the
normalization at line 110 removes dots and uppercases but keeps letters,
and that the second lookup key is the part before the first dot when the
raw code contains one, the first two characters otherwise. -/
def get_idcc_from_ape (ape_code : String) : Option String :=
  let apeNormalized := String.mk ((ape_code.data.filter (· != '.')).map Char.toUpper)
  let apePre := if '.' ∈ ape_code.data then String.mk (ape_code.data.takeWhile (· != '.'))
    else strTake ape_code 2
  match ape_idcc_mapping.lookup apeNormalized with
  | some idcc => some idcc
  | none =>
    match ape_idcc_mapping.lookup apePre with
    | some idcc => some idcc
    | none =>
      if 3 ≤ apeNormalized.length then ape_idcc_mapping.lookup (strTake apeNormalized 3)
      else none

/-!
## Directory Resolver phone formatting (`scraper/pagesjaunes.py`,
`PagesJaunesClient._format_phone`)
-/

/-- The ten digits of a phone number grouped in pairs (line 246 / 253). -/
def groupPairs (d : String) : String :=
  strTake d 2 ++ " " ++ strTake (strDrop d 2) 2 ++ " " ++ strTake (strDrop d 4) 2 ++ " "
    ++ strTake (strDrop d 6) 2 ++ " " ++ strTake (strDrop d 8) 2

/-- Method `_format_phone` (pagesjaunes.py lines 227-256). -/
def format_phone (phone : String) : String :=
  if phone = "" then ""
  else
    let digits := String.mk (phone.data.filter Char.isDigit)
    if digits.length = 10 && strStarts digits "0" then groupPairs digits
    else if 10 ≤ digits.length && strStarts digits "33" then
      if digits.length = 11 then groupPairs ("0" ++ strDrop digits 2)
      else phone
    else phone

/-!
## Link Generators (`web.py` lines 52-95)
-/

/-- Function `generate_pappers_url` (web.py lines 52-56). -/
def generate_pappers_url (siren : String) : String :=
  if siren = "" || siren.length < 9 then ""
  else "https://www.pappers.fr/recherche?q=" ++ siren

/-- Function `generate_pagesjaunes_url` (web.py lines 59-80). -/
def generate_pagesjaunes_url (nom adresse : String) : String :=
  if nom = "" then ""
  else
    let code_postal := if adresse = "" then "" else (findPostalCode adresse).getD ""
    if code_postal = "" then ""
    else "https://www.pagesjaunes.fr/recherche/" ++ code_postal ++ "/" ++ urlQuote (pyStrip nom)

/-- Function `generate_opco_url` (web.py lines 83-95). -/
def generate_opco_url (siret : String) : String :=
  if siret = "" then ""
  else
    let t := pyStrip siret
    if !(pyIsdigit t && t.length = 14) then ""
    else "https://quel-est-mon-opco.francecompetences.fr/?siret=" ++ t

/-!
## Annotation Store (`web.py`: model `EntrepriseData`, routes
`save_statut` and `save_field`)

The single `entreprise_data` table is modelled as a partial map from the
primary key `siret` to a row.  Columns are `Option String`: `none` models
SQL NULL (for `date_modification`, which has no column default), `some s`
a stored string.  Column defaults (`statut = "A traiter"`,
`funbooster = ""`, `observation = ""`) are applied when a fresh row is
inserted, exactly as SQLAlchemy applies them at INSERT time.
-/

/-- One row of the `entreprise_data` table (web.py lines 24-40). -/
structure AnnotRow where
  statut : Option String
  date_modification : Option String
  funbooster : Option String
  observation : Option String
deriving DecidableEq, Repr

/-- The annotation table: primary key to row. -/
abbrev AnnotDb := String → Option AnnotRow

/-- Insert-or-replace of one keyed row. -/
def dbSet (db : AnnotDb) (k : String) (a : AnnotRow) : AnnotDb :=
  fun k' => if k' = k then some a else db k'

/-- The `/api/save-statut` route body (web.py lines 162-192).  `now` is
`datetime.now().strftime(...)`; `statut?` is the optional `statut` payload
key (absent models the `data.get` default `"A traiter"`). -/
def save_statut (now : String) (db : AnnotDb) (siret : String)
    (statut? : Option String) : Except String AnnotDb :=
  let siretT := pyStrip siret
  let statutT := pyStrip (statut?.getD "A traiter")
  if siretT = "" then .error "SIRET manquant."
  else
    let row :=
      match db siretT with
      | some r => { r with statut := some statutT, date_modification := some now }
      | none => { statut := some statutT, date_modification := some now,
                  funbooster := some "", observation := some "" }
    .ok (dbSet db siretT row)

/-- The `/api/save-field` route body (web.py lines 195-222). -/
def save_field (db : AnnotDb) (siret field value : String) : Except String AnnotDb :=
  let siretT := pyStrip siret
  let fieldT := pyStrip field
  let valueT := pyStrip value
  if siretT = "" || (fieldT ≠ "funbooster" && fieldT ≠ "observation") then
    .error "Paramètres invalides."
  else
    let base :=
      match db siretT with
      | some r => r
      | none => { statut := some "A traiter", date_modification := none,
                  funbooster := some "", observation := some "" }
    let row := if fieldT = "funbooster" then { base with funbooster := some valueT }
      else { base with observation := some valueT }
    .ok (dbSet db siretT row)

/-!
## Export Function (`web.py`, route `export_to_excel`, lines 225-310)

The incoming `results` payload is modelled as a list of JSON objects (the
route-level `try` turns non-object entries into a generic 500 error, which
no claim touches).  The spreadsheet rendering (openpyxl styling, widths)
is purely cosmetic; the data rows handed to the spreadsheet writer are
modelled by `ExcelRow`.
-/

/-- Python `a or dflt` on a nullable text column. -/
def pyOrStr (v : Option String) (dflt : String) : String :=
  match v with
  | some s => if s = "" then dflt else s
  | none => dflt

/-- Python dict assignment `d[k] = v`: replace in place, append if new. -/
def dictSet (fs : Obj) (k : String) (v : JsonValue) : Obj :=
  if fs.any (·.1 == k) then fs.map (fun p => if p.1 == k then (k, v) else p)
  else fs ++ [(k, v)]

/-- The export filter predicate (web.py line 255):
`str(ent.get("etat", "")).strip() == "Actif"`. -/
def is_actif_export (ent : Obj) : Bool :=
  pyStrip (pyStr (objGet ent "etat" (.str ""))) == "Actif"

/-- The database merge of lines 261-269: overwrite the annotation fields
of one record from its stored row (when the trimmed `siret` is non-empty
and a row exists).  `.strip()` on a non-string `siret` value raises. -/
def merge_db (db : AnnotDb) (ent : Obj) : Except String Obj := do
  match objGet ent "siret" (.str "") with
  | .str s =>
    let siretT := pyStrip s
    if siretT ≠ "" then
      match db siretT with
      | some a =>
        let e1 := dictSet ent "statut" (.str (pyOrStr a.statut "A traiter"))
        let e2 := dictSet e1 "date_modification" (.str (pyOrStr a.date_modification ""))
        let e3 := dictSet e2 "funbooster" (.str (pyOrStr a.funbooster ""))
        pure (dictSet e3 "observation" (.str (pyOrStr a.observation "")))
      | none => pure ent
    else pure ent
  | _ => throw "AttributeError"

/-- The merge loop over all retained records. -/
def mergeAll (db : AnnotDb) : List Obj → Except String (List Obj)
  | [] => .ok []
  | e :: rest => do
    let m ← merge_db db e
    let ms ← mergeAll db rest
    pure (m :: ms)

/-- One data row of the exported spreadsheet, in the fixed column order of
web.py lines 236-252 / 291-307. -/
structure ExcelRow where
  nom : String
  adresse : String
  telephone : String
  secteur : String
  siret : String
  siren : String
  effectif : String
  etat : String
  statut : String
  date_modification : String
  funbooster : String
  observation : String
  opco_url : String
  pappers_url : String
  pagesjaunes_url : String
deriving DecidableEq, Repr

/-- One cleaned cell (lines 275-289):
`str(ent.get(k, dflt)).strip() if ent.get(k) else dflt`. -/
def cleanField (ent : Obj) (k : String) (dflt : String) : String :=
  let v := objGet ent k JsonValue.null
  if pyTruthy v then pyStrip (pyStr v) else dflt

/-- One spreadsheet row built from a merged record (lines 273-307). -/
def make_row (ent : Obj) : ExcelRow :=
  { nom := cleanField ent "nom" "",
    adresse := cleanField ent "adresse" "",
    telephone := cleanField ent "telephone" "",
    secteur := cleanField ent "secteur" "",
    siret := cleanField ent "siret" "",
    siren := cleanField ent "siren" "",
    effectif := cleanField ent "effectif" "",
    etat := cleanField ent "etat" "",
    statut := cleanField ent "statut" "A traiter",
    date_modification := cleanField ent "date_modification" "",
    funbooster := cleanField ent "funbooster" "",
    observation := cleanField ent "observation" "",
    opco_url := cleanField ent "opco_url" "",
    pappers_url := cleanField ent "pappers_url" "",
    pagesjaunes_url := cleanField ent "pagesjaunes_url" "" }

/-- The `/api/export` route body (web.py lines 225-310), up to the data
rows handed to the spreadsheet writer. -/
def export_to_excel (db : AnnotDb) (results : List Obj) : Except String (List ExcelRow) :=
  if results.isEmpty then .error "Aucune donnée à exporter."
  else
    let active := results.filter is_actif_export
    if active.isEmpty then .error "Aucune entreprise active à exporter."
    else do
      let merged ← mergeAll db active
      pure (merged.map make_row)

/-!
## Helper lemmas
-/

/-- A string append whose left part is non-empty is non-empty. -/
theorem append_ne_empty_left (a b : String) (h : a ≠ "") : a ++ b ≠ "" := by
  intro hab
  apply h
  have hd := congrArg String.data hab
  simp [String.data_append] at hd
  exact String.ext hd.1

/-- A found postal code is non-empty (it is five characters). -/
theorem findPostalCode_ne_empty (s : String) (cp : String)
    (h : findPostalCode s = some cp) : cp ≠ "" := by
  unfold findPostalCode at h
  cases hm : pcAux none s.data with
  | none => rw [hm] at h; cases h
  | some m =>
    rw [hm] at h
    simp only [Option.map_some'] at h
    cases h
    simp [String.ext_iff]

/-- When the establishment state does not resolve to `"A"`, its label is
the literal `"Actif"` exactly when the raw state is the string `"Actif"`
itself (the label map passes unknown truthy states through). -/
theorem etat_label_actif_iff (e : JsonValue) (h : isA e = false) :
    (etat_label_v e = JsonValue.str "Actif" ↔ e = JsonValue.str "Actif") := by
  cases e with
  | str s =>
    simp only [isA, beq_eq_false_iff_ne, ne_eq] at h
    simp only [etat_label_v]
    split_ifs with h1 h2 h3
    · subst h1; simp
    · subst h2; simp
    · exact Iff.rfl
    · push_neg at h3; subst h3; simp
  | null => simp [etat_label_v, pyTruthy]
  | bool b => cases b <;> simp [etat_label_v, pyTruthy]
  | num n => simp only [etat_label_v]; split <;> simp
  | arr xs => simp only [etat_label_v]; split <;> simp
  | obj fs => simp only [etat_label_v]; split <;> simp

/-- C1 counterexample: for the upstream establishment state `"Actif"` (a
state that does not resolve to active, which is the raw code `"A"`), the
displayed status is nevertheless `"Actif"`, refuting the claimed
biconditional "displayed status is Actif exactly when both states resolve
to A". -/
theorem etat_final_not_only_both_active :
    etat_final_v (JsonValue.str "Actif") (JsonValue.str "A") = JsonValue.str "Actif"
    ∧ isA (JsonValue.str "Actif") = false :=
  ⟨rfl, rfl⟩

/-- C1 (amended): the displayed status is `"Actif"` iff both states
resolve to `"A"` or the establishment state is itself the literal label
`"Actif"`; a non-active establishment shows its own status label; an
active establishment with a non-active business unit shows `"Fermé"`; in
particular active+active gives `"Actif"`, establishment `"F"` gives
`"Fermé"` for every business state, and active+`"C"` gives `"Fermé"`. -/
theorem etat_final_resolution : ∀ e u : JsonValue,
    (etat_final_v e u = JsonValue.str "Actif" ↔
      ((isA e = true ∧ isA u = true) ∨ (isA e = false ∧ e = JsonValue.str "Actif")))
    ∧ (isA e = false → etat_final_v e u = etat_label_v e)
    ∧ (isA e = true → isA u = false → etat_final_v e u = JsonValue.str "Fermé")
    ∧ etat_final_v (JsonValue.str "A") (JsonValue.str "A") = JsonValue.str "Actif"
    ∧ etat_final_v (JsonValue.str "F") u = JsonValue.str "Fermé"
    ∧ etat_final_v (JsonValue.str "A") (JsonValue.str "C") = JsonValue.str "Fermé" := by
  intro e u
  refine ⟨?_, ?_, ?_, rfl, rfl, rfl⟩
  · cases he : isA e with
    | true =>
      cases hu : isA u with
      | true => simp [etat_final_v, he, hu]
      | false => simp [etat_final_v, he, hu]
    | false =>
      have hfin : etat_final_v e u = etat_label_v e := by
        simp [etat_final_v, he]
      rw [hfin]
      simp only [he, Bool.false_eq_true, false_and, false_iff, true_and, false_or]
      exact etat_label_actif_iff e he
  · intro he; simp [etat_final_v, he]
  · intro he hu; simp [etat_final_v, he, hu]

/-- C1 witness: the amended resolution rule applied at the concrete
states establishment `"F"`, business `"A"`. -/
theorem etat_final_resolution_witness :
    etat_final_v (JsonValue.str "F") (JsonValue.str "A") = etat_label_v (JsonValue.str "F") :=
  (etat_final_resolution (JsonValue.str "F") (JsonValue.str "A")).2.1 rfl

/-- C9: the joined two-label branch of the status decision is dead code:
the three preceding conditions are exhaustive, so for every pair of
resolved states the displayed status is `"Actif"`, `"Fermé"`, or the
status label of the establishment itself. -/
theorem etat_final_joined_unreachable : ∀ e u : JsonValue,
    ((isA e && isA u) || !isA e || (isA e && !isA u)) = true
    ∧ (etat_final_v e u = JsonValue.str "Actif" ∨ etat_final_v e u = JsonValue.str "Fermé"
        ∨ etat_final_v e u = etat_label_v e) := by
  intro e u
  constructor
  · cases isA e <;> cases isA u <;> rfl
  · cases he : isA e <;> cases hu : isA u <;> simp [etat_final_v, he, hu]

/-- C2: the static APE fallback evaluated at the two claimed inputs: the
sector code `"4711"` resolves to agreement code `"2120"`, but `"47.11C"`
resolves to nothing — the line-110 normalization keeps the trailing
letter (`"4711C"`), contradicting the source comment ("enlever les
points et lettres"), and neither `"47"` nor `"471"` is in the table. -/
theorem idcc_from_ape_divergence :
    get_idcc_from_ape "4711" = some "2120" ∧ get_idcc_from_ape "47.11C" = none :=
  ⟨rfl, rfl⟩

/-- C6: phone formatting maps `"0123456789"` to `"01 23 45 67 89"`,
strips the international prefix of `"33123456789"` and restores the
trunk `"0"`, returns `"notanumber"` unchanged, and groups every 10-digit
input starting with `"0"` in pairs separated by single spaces. -/
theorem format_phone_spec :
    format_phone "0123456789" = "01 23 45 67 89"
    ∧ format_phone "33123456789" = "01 23 45 67 89"
    ∧ format_phone "notanumber" = "notanumber"
    ∧ ∀ s : String, s.length = 10 → s.data.all Char.isDigit = true →
        strStarts s "0" = true → format_phone s = groupPairs s := by
  refine ⟨rfl, rfl, rfl, ?_⟩
  intro s hlen hdig hstart
  have hne : s ≠ "" := by
    intro h; subst h; simp at hlen
  have hfilter : s.data.filter Char.isDigit = s.data :=
    List.filter_eq_self.mpr (by simpa [List.all_eq_true] using hdig)
  have hmk : String.mk (s.data.filter Char.isDigit) = s := by rw [hfilter]
  have h10 : decide (s.length = 10) = true := by simp [hlen]
  simp only [format_phone, if_neg hne, hmk, h10, hstart]
  simp

/-- C6 witness: the general pair-grouping rule applied at `"0612345678"`. -/
theorem format_phone_spec_witness :
    format_phone "0612345678" = groupPairs "0612345678" :=
  format_phone_spec.2.2.2 "0612345678" (by decide) (by decide) (by decide)

/-- C3 counterexample: with an empty company name, the directory link is
empty even though a 5-digit postal code is extractable from the address,
refuting "the directory link is non-empty iff a 5-digit postal code is
extractable from the address". -/
theorem link_nonempty_counterexample :
    generate_pagesjaunes_url "" "10 Rue X, 75001 Paris" = ""
    ∧ findPostalCode "10 Rue X, 75001 Paris" = some "75001" :=
  ⟨rfl, rfl⟩

/-- C3 (amended): the officer-lookup link is non-empty iff the business
identifier has length at least 9; the directory link is non-empty iff the
name is non-empty and a 5-digit postal code is extractable from the
address; the training-fund link is non-empty iff the establishment
identifier, after stripping surrounding whitespace, consists of exactly
14 digits.  All three generators are total functions returning the empty
string on precondition failure. -/
theorem link_nonempty_spec :
    (∀ siren : String, generate_pappers_url siren ≠ "" ↔ 9 ≤ siren.length)
    ∧ (∀ nom adresse : String,
        generate_pagesjaunes_url nom adresse ≠ "" ↔
          (nom ≠ "" ∧ (findPostalCode adresse).isSome = true))
    ∧ (∀ siret : String,
        generate_opco_url siret ≠ "" ↔
          (pyIsdigit (pyStrip siret) = true ∧ (pyStrip siret).length = 14)) := by
  refine ⟨?_, ?_, ?_⟩
  · intro siren
    unfold generate_pappers_url
    split
    next h =>
      simp only [Bool.or_eq_true, decide_eq_true_eq] at h
      have hlen : ¬ 9 ≤ siren.length := by
        rcases h with h | h
        · subst h; simp
        · omega
      simp [hlen]
    next h =>
      simp only [Bool.or_eq_true, decide_eq_true_eq, not_or, not_lt] at h
      simp only [h.2, iff_true]
      exact append_ne_empty_left _ _ (by decide)
  · intro nom adresse
    by_cases hn : nom = ""
    · subst hn; simp [generate_pagesjaunes_url]
    · cases hfp : findPostalCode adresse with
      | none =>
        have hcp : generate_pagesjaunes_url nom adresse = "" := by
          simp only [generate_pagesjaunes_url, if_neg hn, hfp, Option.getD_none]
          split <;> simp
        rw [hcp]
        simp
      | some cp =>
        have hane : adresse ≠ "" := by
          intro ha
          rw [ha] at hfp
          exact absurd hfp (by simp [findPostalCode, pcAux])
        have hcpne : cp ≠ "" := findPostalCode_ne_empty _ _ hfp
        have hurl : generate_pagesjaunes_url nom adresse =
            "https://www.pagesjaunes.fr/recherche/" ++ cp ++ "/" ++ urlQuote (pyStrip nom) := by
          simp only [generate_pagesjaunes_url, if_neg hn, if_neg hane, hfp,
            Option.getD_some, if_neg hcpne]
        rw [hurl]
        constructor
        · intro _
          exact ⟨hn, rfl⟩
        · intro _
          exact append_ne_empty_left _ _
            (append_ne_empty_left _ _ (append_ne_empty_left _ _ (by decide)))
  · intro siret
    by_cases hs : siret = ""
    · subst hs; decide
    · simp only [generate_opco_url, if_neg hs]
      split
      next h =>
        constructor
        · intro hc; exact absurd rfl hc
        · rintro ⟨h1, h2⟩
          exfalso
          have hb : (pyIsdigit (pyStrip siret) && decide ((pyStrip siret).length = 14)) = true := by
            rw [h1]
            simpa using h2
          rw [hb] at h
          simp at h
      next h =>
        have hb : (pyIsdigit (pyStrip siret) && decide ((pyStrip siret).length = 14)) = true := by
          cases hcond : (pyIsdigit (pyStrip siret) && decide ((pyStrip siret).length = 14)) with
          | true => rfl
          | false => exact absurd (by rw [hcond]; rfl) h
        rw [Bool.and_eq_true, decide_eq_true_eq] at hb
        constructor
        · intro _; exact hb
        · intro _; exact append_ne_empty_left _ _ (by decide)

/-- Bind reduction on `Except.ok`. -/
theorem except_bind_ok {ε α β : Type} (a : α) (f : α → Except ε β) :
    (Except.ok a >>= f) = f a := rfl

/-- Bind reduction on `Except.error`. -/
theorem except_bind_error {ε α β : Type} (e : ε) (f : α → Except ε β) :
    ((Except.error e : Except ε α) >>= f) = Except.error e := rfl

/-- Containment: `needle` occurs verbatim inside `hay`. -/
def containsSub (hay needle : String) : Prop :=
  ∃ p q : String, hay = p ++ needle ++ q

/-- C4 counterexample: a parseable upstream body whose establishment list
contains a non-dict entry makes the search raise (`e.get(...)` on a
string, outside the `try` block) instead of returning demo data. -/
theorem sirene_raises_on_nondict :
    sirene_search "k" "sec" "75" 300
      (.ok (.obj [("etablissements", .arr [.str "foo"])])) = .error "AttributeError" := rfl

/-- C4 (amended): on a transport error or unparseable body — and in demo
mode — the search returns the demo output for the same inputs, and each
synthetic record name embeds the department verbatim and the title-cased
sector; however, parseable bodies whose establishment entries are not
objects make the normalization loop raise (see the counterexample). -/
theorem sirene_demo_fallback :
    (∀ (k s d : String) (l : Nat), k ≠ "" →
        sirene_search k s d l (.error ()) = .ok (demo_results s d))
    ∧ (∀ (s d : String) (l : Nat) (resp : Except Unit JsonValue),
        sirene_search "" s d l resp = .ok (demo_results s d))
    ∧ (∀ s d : String, ∃ n1 n2 : String,
        ((demo_results s d).map (·.nom)) = [.str n1, .str n2]
        ∧ containsSub n1 d ∧ containsSub n1 (pyTitle s)
        ∧ containsSub n2 d ∧ containsSub n2 (pyTitle s)) := by
  refine ⟨?_, ?_, ?_⟩
  · intro k s d l hk
    simp [sirene_search, hk]
  · intro s d l resp
    simp [sirene_search]
  · intro s d
    refine ⟨"Entreprise " ++ pyTitle s ++ " A (" ++ d ++ ")",
            "Entreprise " ++ pyTitle s ++ " B (" ++ d ++ ")", rfl,
            ⟨"Entreprise " ++ pyTitle s ++ " A (", ")", rfl⟩,
            ⟨"Entreprise ", " A (" ++ d ++ ")", by simp [String.append_assoc]⟩,
            ⟨"Entreprise " ++ pyTitle s ++ " B (", ")", rfl⟩,
            ⟨"Entreprise ", " B (" ++ d ++ ")", by simp [String.append_assoc]⟩⟩

/-- C4 witness: the fallback rule applied with a configured key at
concrete inputs. -/
theorem sirene_demo_fallback_witness :
    sirene_search "key" "boulangerie" "75" 3 (.error ()) =
      .ok (demo_results "boulangerie" "75") :=
  sirene_demo_fallback.1 "key" "boulangerie" "75" 3 (by decide)

/-- The claim-C7 counterexample input: the upstream legal unit supplies a
business identifier `"X"` alongside a 14-digit establishment identifier. -/
def c7Input : JsonValue :=
  .obj [("siret", .str "12345678901234"),
        ("uniteLegale", .obj [("siren", .str "X"),
                              ("etatAdministratifUniteLegale", .str "A")]),
        ("etatAdministratifEtablissement", .str "A")]

/-- C7 counterexample: when the upstream record supplies a truthy business
identifier, it is copied verbatim into the output, so an output record can
carry both identifiers with the business identifier neither 9 characters
long nor a prefix of the establishment identifier. -/
theorem siren_not_always_prefix :
    (normalize_record c7Input).map (·.siren) = .ok (.str "X")
    ∧ (normalize_record c7Input).map (·.siret) = .ok (.str "12345678901234")
    ∧ "X" ≠ strTake "12345678901234" 9
    ∧ ("X").length ≠ 9 :=
  ⟨rfl, rfl, by decide, by decide⟩

/-- The claim-C7 derived-identifier input: same record, no upstream
business identifier. -/
def c7Derived : JsonValue :=
  .obj [("siret", .str "12345678901234"),
        ("uniteLegale", .obj [("etatAdministratifUniteLegale", .str "A")]),
        ("etatAdministratifEtablissement", .str "A")]

/-- C7 (amended): when the upstream business identifier is absent or falsy
and the establishment identifier is a string of length at least 9, the
derived business identifier is its first 9 characters; when the upstream
supplies a truthy business identifier it is used verbatim (and need not be
a prefix).  On the concrete 14-digit input the derived identifier is the
9-character prefix. -/
theorem siren_derivation :
    (∀ (sv : JsonValue) (s : String), pyTruthy sv = false → 9 ≤ s.length →
        compute_siren sv (.str s) = .ok (.str (strTake s 9)))
    ∧ (∀ (sv t : JsonValue), pyTruthy sv = true → compute_siren sv t = .ok sv)
    ∧ (normalize_record c7Derived).map (·.siren) = .ok (.str "123456789") := by
  refine ⟨?_, ?_, rfl⟩
  · intro sv s h h9
    simp only [compute_siren, h, Bool.false_eq_true, if_false, pyLen, except_bind_ok,
      if_pos h9, pySlice9]
  · intro sv t h
    simp [compute_siren, h]

/-- C7 witness: the derivation rule applied at a falsy upstream identifier
and the concrete establishment identifier `"123456789000"`. -/
theorem siren_derivation_witness :
    compute_siren JsonValue.null (.str "123456789000") =
      .ok (.str (strTake "123456789000" 9)) :=
  siren_derivation.1 JsonValue.null "123456789000" rfl (by decide)

/-- A successful merge loop preserves the number of records. -/
theorem mergeAll_length (db : AnnotDb) : ∀ (l m : List Obj),
    mergeAll db l = .ok m → m.length = l.length := by
  intro l
  induction l with
  | nil =>
    intro m h
    simp only [mergeAll] at h
    cases h
    rfl
  | cons e rest ih =>
    intro m h
    simp only [mergeAll] at h
    cases hm : merge_db db e with
    | error err => rw [hm, except_bind_error] at h; cases h
    | ok m1 =>
      rw [hm, except_bind_ok] at h
      cases hms : mergeAll db rest with
      | error err => rw [hms, except_bind_error] at h; cases h
      | ok ms =>
        rw [hms, except_bind_ok] at h
        cases h
        simp [ih ms hms]

/-- C5 counterexample: a record whose status is `" Actif "` — not equal to
`"Actif"` — is nevertheless retained by the export filter (line 255 strips
whitespace before comparing), so the export emits a row for it instead of
failing with the no-active-records error. -/
theorem export_retains_padded_status :
    export_to_excel (fun _ => none) [[("etat", JsonValue.str " Actif ")]] =
      .ok [{ nom := "", adresse := "", telephone := "", secteur := "",
             siret := "", siren := "", effectif := "", etat := "Actif",
             statut := "A traiter", date_modification := "", funbooster := "",
             observation := "", opco_url := "", pappers_url := "", pagesjaunes_url := "" }]
    ∧ " Actif " ≠ "Actif" :=
  ⟨rfl, by decide⟩

/-- C5 (amended): the export retains exactly the records whose
string-converted, whitespace-stripped status equals `"Actif"`, emits one
row per retained record, and signals the user-facing error (producing no
rows) when no record is retained.  On the claimed concrete instance — one
record with status `"Actif"`, one with `"Fermé"` — exactly one row is
produced, carrying the name of the active record. -/
theorem export_filter_spec :
    (∀ (db : AnnotDb) (results : List Obj) (rows : List ExcelRow),
        export_to_excel db results = .ok rows →
        rows.length = (results.filter is_actif_export).length
        ∧ results.filter is_actif_export ≠ [])
    ∧ (∀ (db : AnnotDb) (results : List Obj), results ≠ [] →
        results.filter is_actif_export = [] →
        export_to_excel db results = .error "Aucune entreprise active à exporter.")
    ∧ export_to_excel (fun _ => none)
        [[("etat", JsonValue.str "Actif"), ("nom", JsonValue.str "Maison Albert")],
         [("etat", JsonValue.str "Fermé"), ("nom", JsonValue.str "Bar Leon")]] =
      .ok [{ nom := "Maison Albert", adresse := "", telephone := "", secteur := "",
             siret := "", siren := "", effectif := "", etat := "Actif",
             statut := "A traiter", date_modification := "", funbooster := "",
             observation := "", opco_url := "", pappers_url := "", pagesjaunes_url := "" }] := by
  refine ⟨?_, ?_, rfl⟩
  · intro db results rows h
    simp only [export_to_excel] at h
    split at h
    · cases h
    · split at h
      next ha =>
        cases h
      next ha =>
        have hane : results.filter is_actif_export ≠ [] := by
          intro hnil
          rw [List.isEmpty_iff] at ha
          exact ha hnil
        cases hm : mergeAll db (results.filter is_actif_export) with
        | error err => rw [hm, except_bind_error] at h; cases h
        | ok merged =>
          rw [hm, except_bind_ok] at h
          cases h
          exact ⟨by simp [mergeAll_length db _ _ hm], hane⟩
  · intro db results hne hfil
    simp only [export_to_excel]
    rw [if_neg (by simp [List.isEmpty_iff, hne]), if_pos (by simp [List.isEmpty_iff, hfil])]

/-- C5 witness: the retained-row count rule applied at the concrete
two-record instance. -/
theorem export_filter_spec_witness :
    ([{ nom := "Maison Albert", adresse := "", telephone := "", secteur := "",
        siret := "", siren := "", effectif := "", etat := "Actif",
        statut := "A traiter", date_modification := "", funbooster := "",
        observation := "", opco_url := "", pappers_url := "", pagesjaunes_url := "" }]
      : List ExcelRow).length =
      ([[("etat", JsonValue.str "Actif"), ("nom", JsonValue.str "Maison Albert")],
        [("etat", JsonValue.str "Fermé"), ("nom", JsonValue.str "Bar Leon")]].filter
          is_actif_export).length :=
  (export_filter_spec.1 (fun _ => none) _ _ export_filter_spec.2.2).1

/-- C8: the annotation upsert is idempotent on identical input — repeating
a status save leaves the stored status and free fields equal to the state
after the first save (only the timestamp is refreshed), and repeating a
field save leaves the whole table unchanged; a field save for a missing
key creates the row with default status `"A traiter"`; a status save
always stamps `date_modification` with the current time, stores the
supplied (or defaulted) status, and touches no other key. -/
theorem annot_upsert_spec :
    (∀ (now1 now2 : String) (db : AnnotDb) (siret : String) (statut? : Option String)
        (db1 db2 : AnnotDb),
        save_statut now1 db siret statut? = .ok db1 →
        save_statut now2 db1 siret statut? = .ok db2 →
        ∀ k, (db2 k).map (fun a => (a.statut, a.funbooster, a.observation))
          = (db1 k).map (fun a => (a.statut, a.funbooster, a.observation)))
    ∧ (∀ (db : AnnotDb) (siret field value : String) (db1 db2 : AnnotDb),
        save_field db siret field value = .ok db1 →
        save_field db1 siret field value = .ok db2 →
        ∀ k, db2 k = db1 k)
    ∧ (∀ (db : AnnotDb) (siret field value : String) (db1 : AnnotDb),
        db (pyStrip siret) = none →
        save_field db siret field value = .ok db1 →
        (db1 (pyStrip siret)).map (·.statut) = some (some "A traiter"))
    ∧ (∀ (now : String) (db : AnnotDb) (siret : String) (statut? : Option String)
        (db1 : AnnotDb),
        save_statut now db siret statut? = .ok db1 →
        (db1 (pyStrip siret)).map (·.date_modification) = some (some now)
        ∧ (db1 (pyStrip siret)).map (·.statut)
            = some (some (pyStrip (statut?.getD "A traiter")))
        ∧ ∀ k, k ≠ pyStrip siret → db1 k = db k) := by
  refine ⟨?_, ?_, ?_, ?_⟩
  · intro now1 now2 db siret statut? db1 db2 h1 h2
    simp only [save_statut] at h1 h2
    split at h1
    · cases h1
    · injection h1 with h1
      subst h1
      split at h2
      · cases h2
      · injection h2 with h2
        subst h2
        intro k
        by_cases hk : k = pyStrip siret
        · subst hk
          cases hdb : db (pyStrip siret) <;> simp [dbSet, hdb]
        · simp [dbSet, hk]
  · intro db siret field value db1 db2 h1 h2
    simp only [save_field] at h1 h2
    split at h1
    · cases h1
    · injection h1 with h1
      subst h1
      split at h2
      · cases h2
      · injection h2 with h2
        subst h2
        intro k
        by_cases hk : k = pyStrip siret
        · subst hk
          by_cases hf : pyStrip field = "funbooster" <;>
            cases hdb : db (pyStrip siret) <;> simp [dbSet, hf, hdb]
        · simp [dbSet, hk]
  · intro db siret field value db1 hdb h1
    simp only [save_field] at h1
    split at h1
    · cases h1
    · injection h1 with h1
      subst h1
      by_cases hf : pyStrip field = "funbooster" <;> simp [dbSet, hf, hdb]
  · intro now db siret statut? db1 h1
    simp only [save_statut] at h1
    split at h1
    · cases h1
    · injection h1 with h1
      subst h1
      refine ⟨?_, ?_, ?_⟩
      · cases hdb : db (pyStrip siret) <;> simp [dbSet, hdb]
      · cases hdb : db (pyStrip siret) <;> simp [dbSet, hdb]
      · intro k hk
        simp [dbSet, hk]

/-- C8 witness: both idempotence rules and the stamping rule applied on an
initially empty table at key `"12345678901234"`. -/
theorem annot_upsert_spec_witness :
    ((dbSet (dbSet (fun _ => none) "12345678901234"
        { statut := some "Traité", date_modification := some "01/01/2026 10:00",
          funbooster := some "", observation := some "" }) "12345678901234"
        { statut := some "Traité", date_modification := some "01/01/2026 10:05",
          funbooster := some "", observation := some "" }) "12345678901234").map
      (fun a => (a.statut, a.funbooster, a.observation))
    = ((dbSet (fun _ => none) "12345678901234"
        { statut := some "Traité", date_modification := some "01/01/2026 10:00",
          funbooster := some "", observation := some "" }) "12345678901234").map
      (fun a => (a.statut, a.funbooster, a.observation)) :=
  (annot_upsert_spec.1 "01/01/2026 10:00" "01/01/2026 10:05" (fun _ => none)
    "12345678901234" (some "Traité") _ _ rfl rfl) "12345678901234"

/-- C10: a field save for an existing row changes exactly the chosen free
field — the status, the timestamp, the other free field, and every other
key of the table are untouched; for a missing row it creates the row with
default status `"A traiter"`, an unset (NULL) `date_modification`, the
chosen field set to the stripped value and the other free field empty. -/
theorem save_field_frame :
    ∀ (db : AnnotDb) (siret field value : String) (db1 : AnnotDb),
      save_field db siret field value = .ok db1 →
      (∀ k, k ≠ pyStrip siret → db1 k = db k)
      ∧ (∀ r, db (pyStrip siret) = some r →
          db1 (pyStrip siret) = some (if pyStrip field = "funbooster"
            then { r with funbooster := some (pyStrip value) }
            else { r with observation := some (pyStrip value) }))
      ∧ (db (pyStrip siret) = none →
          db1 (pyStrip siret) = some
            { statut := some "A traiter",
              date_modification := none,
              funbooster := some (if pyStrip field = "funbooster" then pyStrip value else ""),
              observation := some (if pyStrip field = "funbooster" then "" else pyStrip value) }) := by
  intro db siret field value db1 h1
  simp only [save_field] at h1
  split at h1
  · cases h1
  · injection h1 with h1
    subst h1
    refine ⟨?_, ?_, ?_⟩
    · intro k hk
      simp [dbSet, hk]
    · intro r hdb
      by_cases hf : pyStrip field = "funbooster" <;> simp [dbSet, hf, hdb]
    · intro hdb
      by_cases hf : pyStrip field = "funbooster" <;> simp [dbSet, hf, hdb]

/-- C10 witness: the frame rule applied on an empty table — a field save
for key `"123"` leaves the unrelated key `"777"` unmapped. -/
theorem save_field_frame_witness :
    (dbSet (fun _ => none) "123"
      { statut := some "A traiter", date_modification := none,
        funbooster := some "note", observation := some "" }) "777" = none :=
  (save_field_frame (fun _ => none) "123" "funbooster" "note" _ rfl).1 "777" (by decide)
